import Mathlib

/-!
Shallow embedding of `custom_components/miele/sensor.py`.

The coordinator snapshot for one appliance is a flat dictionary keyed by
pipe-delimited field paths; values are Python ints, floats (idealized here as
exact rationals) and strings.  Reads that would raise a Python exception
(`KeyError` on direct indexing, `TypeError` on arithmetic with a string) are
modelled in the `Except String` monad; a normal Python `None` return is
`Option.none` in the result.
-/

namespace Miele

/-- A Python value stored in a coordinator snapshot dictionary.  Python floats
are idealized as exact rationals. -/
inductive PyVal where
  | pyInt : Int → PyVal
  | pyRat : Rat → PyVal
  | pyStr : String → PyVal
deriving DecidableEq

/-- Numeric view of a Python value, used for Python's cross-type numeric
comparisons (`2350 == 2350.0` is `True`). -/
def PyVal.toRat? : PyVal → Option Rat
  | .pyInt i => some (i : Rat)
  | .pyRat q => some q
  | .pyStr _ => none

/-- Python `==`: numeric values compare by value across int/float; any other
pair compares structurally (an int never equals a string). -/
def pyEq (a b : PyVal) : Bool :=
  match a.toRat?, b.toRat? with
  | some x, some y => decide (x = y)
  | _, _ => decide (a = b)

/-- Python `in` on a list, using Python `==`. -/
def pyMem (v : PyVal) (l : List PyVal) : Bool := l.any (fun w => pyEq v w)

/-- Python `dict.get(v, None)` on a dict keyed by Python values. -/
def pyLookup {α : Type} (l : List (PyVal × α)) (v : PyVal) : Option α :=
  (l.find? (fun p => pyEq p.1 v)).map (fun p => p.2)

/-- Python `int()` applied to an exact float: truncation toward zero. -/
def ratTrunc (q : Rat) : Int := if 0 ≤ q then ⌊q⌋ else ⌈q⌉

/-- The per-appliance coordinator snapshot: a flat dict from field path to
value (`self.coordinator.data[self._ent]`). -/
abbrev Snapshot := List (String × PyVal)

/-- Dictionary lookup in a snapshot (`data.get(key)`). -/
def sget (s : Snapshot) (k : String) : Option PyVal :=
  (s.find? (fun p => p.1 = k)).map (fun p => p.2)

/-- Modelled from the spec: the numeric appliance-status codes imported from
`const.py`, which is not under `src/`; the spec presents them as fixed
constants of the shared appliance-status vocabulary.  The concrete numbers
follow the cloud API status enumeration; the development only relies on the
codes being pairwise distinct. -/
def STATE_STATUS_OFF : Int := 1

/-- Modelled from the spec: status code, see `STATE_STATUS_OFF`. -/
def STATE_STATUS_ON : Int := 2

/-- Modelled from the spec: status code, see `STATE_STATUS_OFF`. -/
def STATE_STATUS_PROGRAMMED : Int := 3

/-- Modelled from the spec: status code, see `STATE_STATUS_OFF`. -/
def STATE_STATUS_WAITING_TO_START : Int := 4

/-- Modelled from the spec: status code, see `STATE_STATUS_OFF`. -/
def STATE_STATUS_PROGRAM_ENDED : Int := 7

/-- Modelled from the spec: status code, see `STATE_STATUS_OFF`. -/
def STATE_STATUS_IDLE : Int := 10

/-- Modelled from the spec: status code, see `STATE_STATUS_OFF`. -/
def STATE_STATUS_SERVICE : Int := 12

/-- Modelled from the spec: status code, see `STATE_STATUS_OFF`. -/
def STATE_STATUS_NOT_CONNECTED : Int := 255

/-- Modelled from the spec: the manufacturer constant from `const.py`
(not under `src/`). -/
def MANUFACTURER : PyVal := .pyStr "Miele"

/-- Modelled from the spec: the status-code translation table `STATE_STATUS`
from `const.py` (not under `src/`); a code table looked up by the status
sensor's converter.  The exact contents are irrelevant to every claim. -/
def STATE_STATUS_TABLE : List (PyVal × PyVal) :=
  [(.pyInt 1, .pyStr "off"), (.pyInt 2, .pyStr "on"),
   (.pyInt 3, .pyStr "programmed"), (.pyInt 4, .pyStr "waiting_to_start"),
   (.pyInt 5, .pyStr "in_use"), (.pyInt 7, .pyStr "program_ended"),
   (.pyInt 10, .pyStr "idle"), (.pyInt 12, .pyStr "service"),
   (.pyInt 255, .pyStr "not_connected")]

/-- Modelled from the spec: the per-appliance-type program-id translation table
`STATE_PROGRAM_ID` from `const.py` (not under `src/`).  The exact contents are
irrelevant to every claim. -/
def STATE_PROGRAM_ID_TABLE : List (PyVal × List (PyVal × PyVal)) :=
  [(.pyInt 1, [(.pyInt 1, .pyStr "cottons"), (.pyInt 3, .pyStr "minimum_iron")])]

/-- Modelled from the spec: the program-type translation table
`STATE_PROGRAM_TYPE` from `const.py` (not under `src/`). -/
def STATE_PROGRAM_TYPE_TABLE : List (PyVal × PyVal) :=
  [(.pyInt 0, .pyStr "normal_operation_mode"), (.pyInt 1, .pyStr "own_program")]

/-- Modelled from the spec: the program-phase translation table
`STATE_PROGRAM_PHASE` from `const.py` (not under `src/`). -/
def STATE_PROGRAM_PHASE_TABLE : List (PyVal × PyVal) :=
  [(.pyInt 260, .pyStr "main_wash"), (.pyInt 261, .pyStr "rinse")]

/-- `lambda x, t: x / 100.0` — the temperature converters in `SENSOR_TYPES`. -/
def tempConvert (x _t : PyVal) : Except String PyVal :=
  match x.toRat? with
  | some q => .ok (.pyRat (q / 100))
  | none => .error "TypeError"

/-- `lambda x, t: int(x / 100.0)` — the target-temperature converters. -/
def targetTempConvert (x _t : PyVal) : Except String PyVal :=
  match x.toRat? with
  | some q => .ok (.pyInt (ratTrunc (q / 100)))
  | none => .error "TypeError"

/-- `lambda x, t: STATE_STATUS.get(x, x)` — the status sensor's converter. -/
def statusConvert (x _t : PyVal) : Except String PyVal :=
  .ok ((pyLookup STATE_STATUS_TABLE x).getD x)

/-- `lambda x, t: STATE_PROGRAM_ID.get(t, {}).get(x, x)`. -/
def programIdConvert (x t : PyVal) : Except String PyVal :=
  .ok ((pyLookup ((pyLookup STATE_PROGRAM_ID_TABLE t).getD []) x).getD x)

/-- `lambda t: STATE_PROGRAM_ID.get(t, {}).values()` — the available-states
generator of the program sensor. -/
def programIdAvailableStates (t : PyVal) : List PyVal :=
  ((pyLookup STATE_PROGRAM_ID_TABLE t).getD []).map (fun p => p.2)

/-- `lambda x, t: STATE_PROGRAM_TYPE.get(x, x)`. -/
def programTypeConvert (x _t : PyVal) : Except String PyVal :=
  .ok ((pyLookup STATE_PROGRAM_TYPE_TABLE x).getD x)

/-- `lambda x, t: STATE_PROGRAM_PHASE.get(x, x)`. -/
def programPhaseConvert (x _t : PyVal) : Except String PyVal :=
  .ok ((pyLookup STATE_PROGRAM_PHASE_TABLE x).getD x)

/-- The fields of `MieleSensorDescription` that the read path uses.  Display
metadata (unit, icon, category, ...) plays no role in any claim and is
omitted. -/
structure MieleSensorDescription where
  key : String
  data_tag : Option String := none
  data_tag1 : Option String := none
  data_tag_loc : Option String := none
  type_key : String := "ident|type|value_localized"
  type_key_raw : String := "ident|type|value_raw"
  status_key_raw : String := "state|status|value_raw"
  convert : Option (PyVal → PyVal → Except String PyVal) := none
  available_states : Option (PyVal → List PyVal) := none
  extra_attributes : Option (List (String × PyVal)) := none

/-- `SENSOR_TYPES` entry with `key="temperature"`. -/
def temperatureDesc : MieleSensorDescription :=
  { key := "temperature", data_tag := some "state|temperature|0|value_raw",
    convert := some tempConvert }

/-- `SENSOR_TYPES` entry with `key="targetTemperature"`. -/
def targetTemperatureDesc : MieleSensorDescription :=
  { key := "targetTemperature",
    data_tag := some "state|targetTemperature|0|value_raw",
    convert := some targetTempConvert }

/-- `SENSOR_TYPES` entry with `key="targetTemperature2"`. -/
def targetTemperature2Desc : MieleSensorDescription :=
  { key := "targetTemperature2",
    data_tag := some "state|targetTemperature|1|value_raw",
    convert := some targetTempConvert }

/-- `SENSOR_TYPES` entry with `key="targetTemperature3"`. -/
def targetTemperature3Desc : MieleSensorDescription :=
  { key := "targetTemperature3",
    data_tag := some "state|targetTemperature|2|value_raw",
    convert := some targetTempConvert }

/-- `SENSOR_TYPES` entry with `key="stateStatus"`. -/
def stateStatusDesc : MieleSensorDescription :=
  { key := "stateStatus", data_tag := some "state|status|value_raw",
    convert := some statusConvert,
    extra_attributes := some
      [("Serial no", .pyInt 0), ("Raw value", .pyInt 0), ("Appliance", .pyInt 0),
       ("Manufacturer", .pyInt 0), ("Model", .pyInt 0), ("HW version", .pyInt 0),
       ("SW version", .pyInt 0)] }

/-- `SENSOR_TYPES` entry with `key="stateProgramId"`. -/
def stateProgramIdDesc : MieleSensorDescription :=
  { key := "stateProgramId", data_tag := some "state|ProgramID|value_raw",
    data_tag_loc := some "state|ProgramID|value_localized",
    convert := some programIdConvert,
    available_states := some programIdAvailableStates,
    extra_attributes := some [("Raw value", .pyInt 0)] }

/-- `SENSOR_TYPES` entry with `key="stateProgramType"`. -/
def stateProgramTypeDesc : MieleSensorDescription :=
  { key := "stateProgramType", data_tag := some "state|programType|value_raw",
    data_tag_loc := some "state|programType|value_localized",
    convert := some programTypeConvert,
    extra_attributes := some [("Raw value", .pyInt 0)] }

/-- `SENSOR_TYPES` entry with `key="stateProgramPhase"`. -/
def stateProgramPhaseDesc : MieleSensorDescription :=
  { key := "stateProgramPhase", data_tag := some "state|programPhase|value_raw",
    data_tag_loc := some "state|programPhase|value_localized",
    convert := some programPhaseConvert,
    extra_attributes := some [("Raw value", .pyInt 0)] }

/-- `SENSOR_TYPES` entry with `key="stateRemainingTime"`. -/
def stateRemainingTimeDesc : MieleSensorDescription :=
  { key := "stateRemainingTime", data_tag := some "state|remainingTime|0",
    data_tag1 := some "state|remainingTime|1" }

/-- `SENSOR_TYPES` entry with `key="stateRemainingTimeAbs"`. -/
def stateRemainingTimeAbsDesc : MieleSensorDescription :=
  { key := "stateRemainingTimeAbs", data_tag := some "state|remainingTime|0",
    data_tag1 := some "state|remainingTime|1" }

/-- `SENSOR_TYPES` entry with `key="stateStartTime"`. -/
def stateStartTimeDesc : MieleSensorDescription :=
  { key := "stateStartTime", data_tag := some "state|startTime|0",
    data_tag1 := some "state|startTime|1" }

/-- `SENSOR_TYPES` entry with `key="stateStartTimeAbs"`. -/
def stateStartTimeAbsDesc : MieleSensorDescription :=
  { key := "stateStartTimeAbs", data_tag := some "state|startTime|0",
    data_tag1 := some "state|startTime|1" }

/-- `SENSOR_TYPES` entry with `key="stateElapsedTime"`. -/
def stateElapsedTimeDesc : MieleSensorDescription :=
  { key := "stateElapsedTime", data_tag := some "state|elapsedTime|0",
    data_tag1 := some "state|elapsedTime|1" }

/-- `SENSOR_TYPES` entry with `key="stateElapsedTimeAbs"`. -/
def stateElapsedTimeAbsDesc : MieleSensorDescription :=
  { key := "stateElapsedTimeAbs", data_tag := some "state|elapsedTime|0",
    data_tag1 := some "state|elapsedTime|1" }

/-- `SENSOR_TYPES` entry with `key="stateCurrentWaterConsumption"`. -/
def stateCurrentWaterConsumptionDesc : MieleSensorDescription :=
  { key := "stateCurrentWaterConsumption",
    data_tag := some "state|ecoFeedback|currentWaterConsumption|value" }

/-- `SENSOR_TYPES` entry with `key="stateCurrentEnergyConsumption"`. -/
def stateCurrentEnergyConsumptionDesc : MieleSensorDescription :=
  { key := "stateCurrentEnergyConsumption",
    data_tag := some "state|ecoFeedback|currentEnergyConsumption|value" }

/-- One record of the process-wide diagnostic log
`self.hass.data[DOMAIN]["id_log"]`. -/
structure LogRec where
  appliance : PyVal
  key : String
  raw : PyVal
  localized : PyVal
deriving DecidableEq

/-- The `while len(id_log) >= 500: id_log.pop()` loop: Python `list.pop()`
with no argument removes the LAST element, so each iteration drops the most
recently appended record. -/
def idLogTrim (log : List LogRec) : List LogRec :=
  if _h : 500 ≤ log.length then idLogTrim log.dropLast else log
termination_by log.length
decreasing_by simp [List.length_dropLast]; omega

/-- The whole diagnostic-log update: trim, then `id_log.append(record)`. -/
def idLogAppend (log : List LogRec) (r : LogRec) : List LogRec :=
  idLogTrim log ++ [r]

/-- The private mutable state of one `MieleSensor` entity: the two
freeze-on-program-ended caches and the `_available_states` list computed at
construction time. -/
structure EntityState where
  last_elapsed_time_reported : Option PyVal
  last_started_time_reported : Option PyVal
  available_states : List PyVal
deriving DecidableEq

/-- Read-only context of one `native_value` call: the appliance snapshot, the
wall clock (`dt_util.now()`, as minutes from an arbitrary midnight), whether
`_LOGGER.getEffectiveLevel() <= logging.INFO`, and the configuration override
mapping `CONF_PROGRAM_IDS` for this entity. -/
structure ReadCtx where
  snapshot : Snapshot
  now : Int
  logInfo : Bool
  programIds : List (PyVal × PyVal)

/-- Result of a `native_value` read: the returned Python value (`none` is
Python `None`), the entity state after the read, and the diagnostic log after
the read. -/
structure ReadResult where
  value : Option PyVal
  state : EntityState
  idLog : List LogRec
deriving DecidableEq

/-- `data[key]` — direct dictionary indexing; a missing key raises. -/
def getTagS (snap : Snapshot) (k : String) : Except String PyVal :=
  match sget snap k with
  | some v => .ok v
  | none => .error "KeyError"

/-- `data[tag]` where `tag` is the optional `data_tag` attribute; indexing
with a Python `None` key raises `KeyError`. -/
def getTagOpt (snap : Snapshot) (t : Option String) : Except String PyVal :=
  match t with
  | some k => getTagS snap k
  | none => .error "KeyError"

/-- `data.get(tag)` — `None` both for a missing key and for `tag is None`. -/
def dataGet? (snap : Snapshot) (t : Option String) : Option PyVal :=
  t.bind (sget snap)

/-- `data[tag] * 60 + data[tag1]` for a composite time field.  The cloud time
fields are integral; arithmetic on a non-int is modelled as a type error. -/
def minsOf (snap : Snapshot) (d : MieleSensorDescription) : Except String Int :=
  match getTagOpt snap d.data_tag with
  | .error e => .error e
  | .ok (.pyInt a) =>
    match getTagOpt snap d.data_tag1 with
    | .error e => .error e
    | .ok (.pyInt b) => .ok (a * 60 + b)
    | .ok _ => .error "TypeError"
  | .ok _ => .error "TypeError"

/-- Zero-padded two-digit decimal rendering used by `strftime`. -/
def two_digits (n : Nat) : String :=
  if n < 10 then "0" ++ toString n else toString n

/-- `timestamp.strftime("%H:%M")` for a timestamp given in minutes: the
time-of-day is the value modulo one day. -/
def fmtHM (m : Int) : String :=
  let dmin := (m % 1440).toNat
  two_digits (dmin / 60) ++ ":" ++ two_digits (dmin % 60)

/-- The status set of the consumption override (source lines 964-971). -/
def consumptionZeroStates : List PyVal :=
  [.pyInt STATE_STATUS_ON, .pyInt STATE_STATUS_OFF,
   .pyInt STATE_STATUS_PROGRAMMED, .pyInt STATE_STATUS_WAITING_TO_START,
   .pyInt STATE_STATUS_IDLE, .pyInt STATE_STATUS_SERVICE]

/-- The `... <= 0` guard of lines 985-989, evaluated only when the key is
`stateProgramId` or `stateProgramPhase` (Python `and` short-circuits). -/
def lePyZero (v : PyVal) : Except String Bool :=
  match v.toRat? with
  | some q => .ok (decide (q ≤ 0))
  | none => .error "TypeError"

/-- `MieleSensor.native_value` (source lines 835-1008), as a function of the
entity description, the read context, the entity's mutable caches and the
process-wide diagnostic log. -/
def nativeValue (d : MieleSensorDescription) (ctx : ReadCtx) (st : EntityState)
    (idLog : List LogRec) : Except String ReadResult :=
  if d.key ∈ ["stateRemainingTime", "stateStartTime"] then
    match minsOf ctx.snapshot d with
    | .error e => .error e
    | .ok m => .ok ⟨some (.pyInt m), st, idLog⟩
  else if d.key ∈ ["stateRemainingTimeAbs", "stateStartTimeAbs"] then
    match minsOf ctx.snapshot d with
    | .error e => .error e
    | .ok m =>
      if m = 0 then .ok ⟨none, st, idLog⟩
      else .ok ⟨some (.pyStr (fmtHM (ctx.now + m))), st, idLog⟩
  else if d.key ∈ ["stateElapsedTime"] then
    match minsOf ctx.snapshot d with
    | .error e => .error e
    | .ok m =>
      match getTagS ctx.snapshot d.status_key_raw with
      | .error e => .error e
      | .ok s =>
        if pyEq s (.pyInt STATE_STATUS_PROGRAM_ENDED) then
          .ok ⟨st.last_elapsed_time_reported, st, idLog⟩
        else
          .ok ⟨some (.pyInt m),
               { st with last_elapsed_time_reported := some (.pyInt m) }, idLog⟩
  else if d.key ∈ ["stateElapsedTimeAbs"] then
    match minsOf ctx.snapshot d with
    | .error e => .error e
    | .ok m =>
      if m = 0 then .ok ⟨none, st, idLog⟩
      else
        let started := fmtHM (ctx.now - m)
        match getTagS ctx.snapshot d.status_key_raw with
        | .error e => .error e
        | .ok s =>
          if pyEq s (.pyInt STATE_STATUS_PROGRAM_ENDED) then
            .ok ⟨st.last_started_time_reported, st, idLog⟩
          else
            .ok ⟨some (.pyStr started),
                 { st with last_started_time_reported := some (.pyStr started) },
                 idLog⟩
  else if d.key ∈ ["plateStep", "plateStep1", "plateStep2", "plateStep3",
                   "plateStep4", "plateStep5"] then
    if dataGet? ctx.snapshot d.data_tag = none then .ok ⟨some (.pyInt 0), st, idLog⟩
    else
      match getTagOpt ctx.snapshot d.data_tag_loc with
      | .error e => .error e
      | .ok v => .ok ⟨some v, st, idLog⟩
  else
    let logStep : Except String (List LogRec) :=
      if ctx.logInfo = true ∧
          d.key ∈ ["stateProgramPhase", "stateProgramId", "stateProgramType"] then
        match getTagS ctx.snapshot d.type_key with
        | .error e => .error e
        | .ok appl =>
          match getTagOpt ctx.snapshot d.data_tag with
          | .error e => .error e
          | .ok raw =>
            match getTagOpt ctx.snapshot d.data_tag_loc with
            | .error e => .error e
            | .ok loc => .ok (idLogAppend idLog ⟨appl, d.key, raw, loc⟩)
      else .ok idLog
    match logStep with
    | .error e => .error e
    | .ok idLog1 =>
      match getTagS ctx.snapshot d.status_key_raw with
      | .error e => .error e
      | .ok state =>
        if d.key ∈ ["stateCurrentEnergyConsumption", "stateCurrentWaterConsumption"]
            ∧ pyMem state consumptionZeroStates = true then
          .ok ⟨some (.pyInt 0), st, idLog1⟩
        else if dataGet? ctx.snapshot d.data_tag = none then
          .ok ⟨none, st, idLog1⟩
        else
          match getTagOpt ctx.snapshot d.data_tag with
          | .error e => .error e
          | .ok raw =>
            if pyEq raw (.pyInt (-32766)) = true ∨ pyEq raw (.pyInt (-32768)) = true then
              .ok ⟨none, st, idLog1⟩
            else
              let guardStep : Except String Bool :=
                if d.key ∈ ["stateProgramId", "stateProgramPhase"] then lePyZero raw
                else .ok false
              match guardStep with
              | .error e => .error e
              | .ok g =>
                if g = true then .ok ⟨none, st, idLog1⟩
                else
                  match d.convert with
                  | none => .ok ⟨some raw, st, idLog1⟩
                  | some f =>
                    match pyLookup ctx.programIds raw with
                    | some w =>
                      if pyMem w st.available_states = true then .ok ⟨some w, st, idLog1⟩
                      else
                        match getTagS ctx.snapshot d.type_key_raw with
                        | .error e => .error e
                        | .ok t =>
                          match f raw t with
                          | .error e => .error e
                          | .ok r => .ok ⟨some r, st, idLog1⟩
                    | none =>
                      match getTagS ctx.snapshot d.type_key_raw with
                      | .error e => .error e
                      | .ok t =>
                        match f raw t with
                        | .error e => .error e
                        | .ok r => .ok ⟨some r, st, idLog1⟩

/-- `MieleSensor.available` (source lines 1010-1023). -/
def sensorAvailable (d : MieleSensorDescription) (lastUpdateSuccess : Bool)
    (snap : Snapshot) : Except String Bool :=
  if d.key = "stateStatus" then .ok true
  else if lastUpdateSuccess = false then .ok false
  else
    match getTagS snap d.status_key_raw with
    | .error e => .error e
    | .ok s => .ok (!(pyEq s (.pyInt STATE_STATUS_NOT_CONNECTED)))

/-- Left-to-right, non-overlapping pattern replacement on character lists;
the fuel argument (instantiated with the string length) only makes the
recursion structural. -/
def strReplaceAux (pat rep : List Char) : Nat → List Char → List Char
  | _, [] => []
  | 0, s => s
  | fuel + 1, c :: rest =>
    if pat ≠ [] ∧ pat = (c :: rest).take pat.length then
      rep ++ strReplaceAux pat rep fuel ((c :: rest).drop pat.length)
    else c :: strReplaceAux pat rep fuel rest

/-- Python `str.replace(pat, rep)` (replace every occurrence, scanning left to
right). -/
def pyStrReplace (s pat rep : String) : String :=
  ⟨strReplaceAux pat.data rep.data s.data.length s.data⟩

/-- `"Raw value" in attr` — Python key-membership in a dict. -/
def containsKey (l : List (String × PyVal)) (k : String) : Bool :=
  l.any (fun p => p.1 = k)

/-- `attr[k] = v` on a Python dict: update in place if the key exists,
otherwise append the new key at the end (insertion order). -/
def setItem (l : List (String × PyVal)) (k : String) (v : PyVal) :
    List (String × PyVal) :=
  if containsKey l k then l.map (fun p => if p.1 = k then (k, v) else p)
  else l ++ [(k, v)]

/-- The body of `extra_state_attributes` that populates the (aliased)
template dict `attr` in place (source lines 1029-1063). -/
def populateAttrs (d : MieleSensorDescription) (ent : String) (snap : Snapshot)
    (t : List (String × PyVal)) : Except String (List (String × PyVal)) :=
  let step1 : Except String (List (String × PyVal)) :=
    if containsKey t "Raw value" then
      match getTagOpt snap d.data_tag with
      | .error e => .error e
      | .ok raw =>
        match d.data_tag with
        | none => .error "AttributeError"
        | some tag =>
          match getTagS snap (pyStrReplace tag "_raw" "_localized") with
          | .error e => .error e
          | .ok loc => .ok (setItem (setItem t "Raw value" raw) "Localized" loc)
    else .ok t
  match step1 with
  | .error e => .error e
  | .ok a1 =>
    let a2 := if containsKey a1 "Serial no" then setItem a1 "Serial no" (.pyStr ent) else a1
    let step3 : Except String (List (String × PyVal)) :=
      if containsKey a2 "Appliance" then
        match getTagS snap d.type_key with
        | .error e => .error e
        | .ok v => .ok (setItem a2 "Appliance" v)
      else .ok a2
    match step3 with
    | .error e => .error e
    | .ok a3 =>
      let a4 := if containsKey a3 "Manufacturer" then setItem a3 "Manufacturer" MANUFACTURER else a3
      let step5 : Except String (List (String × PyVal)) :=
        if containsKey a4 "Model" then
          match getTagS snap "ident|deviceIdentLabel|techType" with
          | .error e => .error e
          | .ok v => .ok (setItem a4 "Model" v)
        else .ok a4
      match step5 with
      | .error e => .error e
      | .ok a5 =>
        let step6 : Except String (List (String × PyVal)) :=
          if containsKey a5 "HW version" then
            match getTagS snap "ident|xkmIdentLabel|techType" with
            | .error e => .error e
            | .ok v => .ok (setItem a5 "HW version" v)
          else .ok a5
        match step6 with
        | .error e => .error e
        | .ok a6 =>
          if containsKey a6 "SW version" then
            match getTagS snap "ident|xkmIdentLabel|releaseVersion" with
            | .error e => .error e
            | .ok v => .ok (setItem a6 "SW version" v)
          else .ok a6

/-- `MieleSensor.extra_state_attributes` (source lines 1025-1063).  Because
`attr = self.entity_description.extra_attributes` aliases the description's
dict, the in-place updates also land in the description: the result carries
both the returned attributes and the description after the read. -/
def extraStateAttributes (d : MieleSensorDescription) (ent : String)
    (snap : Snapshot) :
    Except String (Option (List (String × PyVal)) × MieleSensorDescription) :=
  match d.extra_attributes with
  | none => .ok (none, d)
  | some t =>
    match populateAttrs d ent snap t with
    | .error e => .error e
    | .ok a => .ok (some a, { d with extra_attributes := some a })

/-- The keys handled by the bespoke branches of `native_value` before the
generic value-derivation path (source lines 838-928). -/
def specialKeys : List String :=
  ["stateRemainingTime", "stateStartTime", "stateRemainingTimeAbs",
   "stateStartTimeAbs", "stateElapsedTime", "stateElapsedTimeAbs", "plateStep",
   "plateStep1", "plateStep2", "plateStep3", "plateStep4", "plateStep5"]

/-- The two consumption keys subject to the show-zero override. -/
def consumptionKeys : List String :=
  ["stateCurrentEnergyConsumption", "stateCurrentWaterConsumption"]

/- Concrete fixtures used by the witness and counterexample theorems. -/

/-- Snapshot: not-connected appliance reporting a fractional energy total. -/
def snapC1 : Snapshot :=
  [("state|status|value_raw", .pyInt 255),
   ("state|ecoFeedback|currentEnergyConsumption|value", .pyRat (mkRat 3 2))]

/-- Snapshot: program ended (status 7), start time 1h30, elapsed time 1h30. -/
def snapEnded : Snapshot :=
  [("state|startTime|0", .pyInt 1), ("state|startTime|1", .pyInt 30),
   ("state|elapsedTime|0", .pyInt 1), ("state|elapsedTime|1", .pyInt 30),
   ("state|status|value_raw", .pyInt 7)]

/-- Entity caches holding a previously computed start-time string. -/
def stCached : EntityState := ⟨none, some (.pyStr "09:15"), []⟩

/-- Snapshot: running appliance (status 5) with all composite time fields. -/
def snapRunning : Snapshot :=
  [("state|remainingTime|0", .pyInt 1), ("state|remainingTime|1", .pyInt 5),
   ("state|startTime|0", .pyInt 0), ("state|startTime|1", .pyInt 45),
   ("state|elapsedTime|0", .pyInt 0), ("state|elapsedTime|1", .pyInt 30),
   ("state|status|value_raw", .pyInt 5)]

/-- Snapshot: running appliance whose program-id raw value is -1. -/
def snapC4 : Snapshot :=
  [("state|status|value_raw", .pyInt 5),
   ("state|ProgramID|value_raw", .pyInt (-1)),
   ("state|ProgramID|value_localized", .pyStr "")]

/-- Snapshot: not-connected appliance. -/
def snapC5 : Snapshot := [("state|status|value_raw", .pyInt 255)]

/-- Snapshot: running washing machine (type 1) with program id 5. -/
def snapC6 : Snapshot :=
  [("state|status|value_raw", .pyInt 5),
   ("state|ProgramID|value_raw", .pyInt 5),
   ("state|ProgramID|value_localized", .pyStr "Program 5"),
   ("ident|type|value_raw", .pyInt 1),
   ("ident|type|value_localized", .pyStr "Washing machine")]

/-- Snapshot: oven (type 19) reporting 2350 decidegrees on both the current
and the target temperature field. -/
def snapC9 : Snapshot :=
  [("state|status|value_raw", .pyInt 5),
   ("ident|type|value_raw", .pyInt 19),
   ("state|temperature|0|value_raw", .pyInt 2350),
   ("state|targetTemperature|0|value_raw", .pyInt 2350)]

/-- A diagnostic record used to fill the log in the C7 fixtures. -/
def logRecA : LogRec := ⟨.pyStr "Washing machine", "stateProgramId", .pyInt 1, .pyStr "Cottons"⟩

/-- A second, distinct diagnostic record (the oldest entry in the fixture). -/
def logRecB : LogRec := ⟨.pyStr "Oven", "stateProgramPhase", .pyInt 2, .pyStr "Heating"⟩

/-- The record being appended in the C7 fixtures. -/
def logRecC : LogRec := ⟨.pyStr "Dishwasher", "stateProgramType", .pyInt 3, .pyStr "Own program"⟩

/-- Snapshot for the diagnostic-log witness: everything the log record and the
generic tail read is present. -/
def snapC7 : Snapshot :=
  [("ident|type|value_localized", .pyStr "Washing machine"),
   ("ident|type|value_raw", .pyInt 1),
   ("state|ProgramID|value_raw", .pyInt 1),
   ("state|ProgramID|value_localized", .pyStr "Cottons"),
   ("state|status|value_raw", .pyInt 5)]

/-- Snapshot for the extra-attributes fixtures: a program phase with raw and
localized values. -/
def snapC8 : Snapshot :=
  [("state|programPhase|value_raw", .pyInt 5),
   ("state|programPhase|value_localized", .pyStr "Main wash")]

/-- A `.get` miss means direct indexing raises `KeyError`. -/
theorem dataGet_none (snap : Snapshot) (t : Option String)
    (h : dataGet? snap t = none) : getTagOpt snap t = .error "KeyError" := by
  cases t with
  | none => rfl
  | some tag =>
    have h2 : sget snap tag = none := h
    simp [getTagOpt, getTagS, h2]

/-- A `.get` hit means direct indexing returns the same value. -/
theorem dataGet_some (snap : Snapshot) (t : Option String) (v : PyVal)
    (h : dataGet? snap t = some v) : getTagOpt snap t = .ok v := by
  cases t with
  | none => simp [dataGet?] at h
  | some tag =>
    have h2 : sget snap tag = some v := h
    simp [getTagOpt, getTagS, h2]

/-- Python `==` on two ints is integer equality. -/
theorem pyEq_int (a b : Int) : pyEq (.pyInt a) (.pyInt b) = decide (a = b) := by
  simp only [pyEq, PyVal.toRat?]
  rw [decide_eq_decide]
  exact Int.cast_inj

/-- A log strictly below capacity is left alone by the trimming loop. -/
theorem idLogTrim_of_lt (l : List LogRec) (h : l.length < 500) : idLogTrim l = l := by
  rw [idLogTrim]
  exact dif_neg (by omega)

/-- A log exactly at capacity loses exactly its last (most recently appended)
element. -/
theorem idLogTrim_atCap (l : List LogRec) (h : l.length = 500) :
    idLogTrim l = l.dropLast := by
  rw [idLogTrim]
  rw [dif_pos (by omega)]
  exact idLogTrim_of_lt l.dropLast (by simp [List.length_dropLast]; omega)

/-- Claim C5: the status sensor is always available; any other sensor is
available exactly when the last coordinator poll succeeded and the
appliance's raw status is not the not-connected code. -/
theorem C5_availability (d : MieleSensorDescription) (lus : Bool)
    (snap : Snapshot) (s : PyVal)
    (hs : sget snap d.status_key_raw = some s) :
    (d.key = "stateStatus" → sensorAvailable d lus snap = .ok true) ∧
    (d.key ≠ "stateStatus" →
      sensorAvailable d lus snap =
        .ok (lus && !(pyEq s (.pyInt STATE_STATUS_NOT_CONNECTED)))) := by
  constructor
  · intro h
    simp [sensorAvailable, h]
  · intro h
    cases lus <;> simp [sensorAvailable, h, getTagS, hs]

/-- Witness for C5: with raw status 255 (not connected) the program sensor is
unavailable while the status sensor itself stays available. -/
theorem C5_availability_witness :
    sensorAvailable stateProgramIdDesc true snapC5 = .ok false ∧
    sensorAvailable stateStatusDesc true snapC5 = .ok true := by
  constructor
  · have h := (C5_availability stateProgramIdDesc true snapC5 (.pyInt 255) rfl).2
      (by decide)
    rw [h]
    rfl
  · exact (C5_availability stateStatusDesc true snapC5 (.pyInt 255) rfl).1 rfl

/-- Claim C10: the non-absolute elapsed-time sensor freezes at program-ended
status, returning the cached minutes value and leaving the cache untouched;
on any other status it returns the composite total and stores it in the
cache. -/
theorem C10_elapsedTime_freeze (snap : Snapshot) (now : Int) (lI : Bool)
    (pids : List (PyVal × PyVal)) (st : EntityState) (log : List LogRec)
    (a b : Int) (s : PyVal)
    (h1 : sget snap "state|elapsedTime|0" = some (.pyInt a))
    (h2 : sget snap "state|elapsedTime|1" = some (.pyInt b))
    (hs : sget snap "state|status|value_raw" = some s) :
    (pyEq s (.pyInt STATE_STATUS_PROGRAM_ENDED) = true →
      nativeValue stateElapsedTimeDesc ⟨snap, now, lI, pids⟩ st log =
        .ok ⟨st.last_elapsed_time_reported, st, log⟩) ∧
    (pyEq s (.pyInt STATE_STATUS_PROGRAM_ENDED) = false →
      nativeValue stateElapsedTimeDesc ⟨snap, now, lI, pids⟩ st log =
        .ok ⟨some (.pyInt (a * 60 + b)),
             { st with last_elapsed_time_reported := some (.pyInt (a * 60 + b)) },
             log⟩) := by
  constructor <;> intro h <;>
    simp [nativeValue, stateElapsedTimeDesc, minsOf, getTagOpt, getTagS, h1, h2,
      hs, h]

/-- Witness for C10: at status 7 (program ended) the cached 42 minutes are
returned and the cache is unchanged. -/
theorem C10_elapsedTime_freeze_witness :
    nativeValue stateElapsedTimeDesc ⟨snapEnded, 600, false, []⟩
      ⟨some (.pyInt 42), none, []⟩ [] =
      .ok ⟨some (.pyInt 42), ⟨some (.pyInt 42), none, []⟩, []⟩ :=
  (C10_elapsedTime_freeze snapEnded 600 false [] ⟨some (.pyInt 42), none, []⟩ []
    1 30 (.pyInt 7) rfl rfl rfl).1 (by decide)

/-- Claim C1: the energy/water consumption sensors report exactly 0 whenever
the raw status is one of on/off/programmed/waiting-to-start/idle/service, and
otherwise fall through to the generic path, which (the descriptions having no
converter) returns the raw field value; the not-connected code is not in the
zeroing set. -/
theorem C1_consumption_zero (d : MieleSensorDescription)
    (hd : d = stateCurrentEnergyConsumptionDesc ∨
      d = stateCurrentWaterConsumptionDesc)
    (snap : Snapshot) (now : Int) (lI : Bool) (pids : List (PyVal × PyVal))
    (st : EntityState) (log : List LogRec) (s : PyVal)
    (hs : sget snap "state|status|value_raw" = some s) :
    (pyMem s consumptionZeroStates = true →
      nativeValue d ⟨snap, now, lI, pids⟩ st log = .ok ⟨some (.pyInt 0), st, log⟩) ∧
    (pyMem s consumptionZeroStates = false →
      ∀ v, dataGet? snap d.data_tag = some v →
        pyEq v (.pyInt (-32766)) = false → pyEq v (.pyInt (-32768)) = false →
        nativeValue d ⟨snap, now, lI, pids⟩ st log = .ok ⟨some v, st, log⟩) ∧
    pyMem (.pyInt STATE_STATUS_NOT_CONNECTED) consumptionZeroStates = false := by
  refine ⟨?_, ?_, by decide⟩ <;> rcases hd with rfl | rfl
  · intro h
    simp [nativeValue, stateCurrentEnergyConsumptionDesc, getTagS, hs, h]
  · intro h
    simp [nativeValue, stateCurrentWaterConsumptionDesc, getTagS, hs, h]
  · intro h v hv h1 h2
    simp only [dataGet?, stateCurrentEnergyConsumptionDesc, Option.bind] at hv
    simp [nativeValue, stateCurrentEnergyConsumptionDesc, getTagS, getTagOpt,
      dataGet?, hs, h, hv, h1, h2]
  · intro h v hv h1 h2
    simp only [dataGet?, stateCurrentWaterConsumptionDesc, Option.bind] at hv
    simp [nativeValue, stateCurrentWaterConsumptionDesc, getTagS, getTagOpt,
      dataGet?, hs, h, hv, h1, h2]

/-- Witness for C1: a not-connected appliance (status 255) with a fractional
energy total of 1.5 reports 1.5, not 0. -/
theorem C1_consumption_zero_witness :
    nativeValue stateCurrentEnergyConsumptionDesc ⟨snapC1, 0, false, []⟩
      ⟨none, none, []⟩ [] =
      .ok ⟨some (.pyRat (mkRat 3 2)), ⟨none, none, []⟩, []⟩ :=
  (C1_consumption_zero _ (Or.inl rfl) snapC1 0 false [] ⟨none, none, []⟩ []
    (.pyInt 255) rfl).2.1 (by decide) (.pyRat (mkRat 3 2)) rfl (by decide) (by decide)

/-- Counterexample for C2: at status 7 (program ended) with a cached value
"09:15" present and a nonzero start time of 1h30, the `stateStartTimeAbs`
sensor does not return the cached value — it recomputes `now + mins` (10:00 +
1:30 = "11:30") and no freeze happens. -/
theorem C2_counterexample :
    nativeValue stateStartTimeAbsDesc ⟨snapEnded, 600, false, []⟩ stCached [] =
      .ok ⟨some (.pyStr "11:30"), stCached, []⟩ ∧
    some (PyVal.pyStr "11:30") ≠ stCached.last_started_time_reported := by
  constructor
  · rfl
  · intro h
    simp [stCached] at h

/-- Claim C2 as amended: only the `stateElapsedTimeAbs` sensor freezes — when
the raw status equals the program-ended code and the composite minutes total
is nonzero it returns the previously cached computed value and leaves the
cache unmodified (so repeated reads return the same value) — while
`stateStartTimeAbs` recomputes `now + total` from the wall clock regardless of
the program-ended status. -/
theorem C2_amended_freeze (snap : Snapshot) (now : Int) (lI : Bool)
    (pids : List (PyVal × PyVal)) (st : EntityState) (log : List LogRec)
    (a b c e : Int) (s : PyVal)
    (h1 : sget snap "state|elapsedTime|0" = some (.pyInt a))
    (h2 : sget snap "state|elapsedTime|1" = some (.pyInt b))
    (h3 : sget snap "state|startTime|0" = some (.pyInt c))
    (h4 : sget snap "state|startTime|1" = some (.pyInt e))
    (hs : sget snap "state|status|value_raw" = some s)
    (hended : pyEq s (.pyInt STATE_STATUS_PROGRAM_ENDED) = true)
    (hnz : a * 60 + b ≠ 0) :
    (nativeValue stateElapsedTimeAbsDesc ⟨snap, now, lI, pids⟩ st log =
      .ok ⟨st.last_started_time_reported, st, log⟩) ∧
    (c * 60 + e ≠ 0 →
      nativeValue stateStartTimeAbsDesc ⟨snap, now, lI, pids⟩ st log =
        .ok ⟨some (.pyStr (fmtHM (now + (c * 60 + e)))), st, log⟩) := by
  constructor
  · simp [nativeValue, stateElapsedTimeAbsDesc, minsOf, getTagOpt, getTagS, h1,
      h2, hs, hended, hnz]
  · intro hnz2
    simp [nativeValue, stateStartTimeAbsDesc, minsOf, getTagOpt, getTagS, h3,
      h4, hnz2]

/-- Witness for the amended C2: with the program ended, nonzero elapsed time
and a cached "09:15", `stateElapsedTimeAbs` returns the cache unchanged while
`stateStartTimeAbs` recomputes from the wall clock. -/
theorem C2_amended_freeze_witness :
    nativeValue stateElapsedTimeAbsDesc ⟨snapEnded, 600, false, []⟩ stCached [] =
      .ok ⟨stCached.last_started_time_reported, stCached, []⟩ ∧
    nativeValue stateStartTimeAbsDesc ⟨snapEnded, 600, false, []⟩ stCached [] =
      .ok ⟨some (.pyStr (fmtHM (600 + (1 * 60 + 30)))), stCached, []⟩ := by
  have h := C2_amended_freeze snapEnded 600 false [] stCached [] 1 30 1 30
    (.pyInt 7) rfl rfl rfl rfl rfl (by decide) (by decide)
  exact ⟨h.1, h.2 (by decide)⟩

/-- Counterexample for C3: the composite `stateElapsedTime` sensor does not
always equal primary*60 + secondary — with status 7 (program ended) and an
empty cache it returns `None` although the snapshot reports 1h30 = 90
minutes. -/
theorem C3_counterexample :
    nativeValue stateElapsedTimeDesc ⟨snapEnded, 600, false, []⟩ ⟨none, none, []⟩ [] =
      .ok ⟨none, ⟨none, none, []⟩, []⟩ ∧
    (none : Option PyVal) ≠ some (.pyInt (1 * 60 + 30)) := by
  exact ⟨rfl, by simp⟩

/-- Claim C3 as amended: composite time sensors return primary*60 + secondary
total minutes, except that the elapsed-time sensors return the cached value
instead when the status is the program-ended code; for the absolute variants
a zero total yields None, and a nonzero total is added to (remaining/start) or
subtracted from (elapsed) the wall clock and rendered as an HH:MM string. -/
theorem C3_amended_composite_time (snap : Snapshot) (now : Int) (lI : Bool)
    (pids : List (PyVal × PyVal)) (st : EntityState) (log : List LogRec)
    (a b c e p q : Int) (s : PyVal)
    (h1 : sget snap "state|remainingTime|0" = some (.pyInt a))
    (h2 : sget snap "state|remainingTime|1" = some (.pyInt b))
    (h3 : sget snap "state|startTime|0" = some (.pyInt c))
    (h4 : sget snap "state|startTime|1" = some (.pyInt e))
    (h5 : sget snap "state|elapsedTime|0" = some (.pyInt p))
    (h6 : sget snap "state|elapsedTime|1" = some (.pyInt q))
    (hs : sget snap "state|status|value_raw" = some s) :
    (nativeValue stateRemainingTimeDesc ⟨snap, now, lI, pids⟩ st log =
      .ok ⟨some (.pyInt (a * 60 + b)), st, log⟩) ∧
    (nativeValue stateStartTimeDesc ⟨snap, now, lI, pids⟩ st log =
      .ok ⟨some (.pyInt (c * 60 + e)), st, log⟩) ∧
    (pyEq s (.pyInt STATE_STATUS_PROGRAM_ENDED) = false →
      nativeValue stateElapsedTimeDesc ⟨snap, now, lI, pids⟩ st log =
        .ok ⟨some (.pyInt (p * 60 + q)),
             { st with last_elapsed_time_reported := some (.pyInt (p * 60 + q)) },
             log⟩) ∧
    (a * 60 + b = 0 →
      nativeValue stateRemainingTimeAbsDesc ⟨snap, now, lI, pids⟩ st log =
        .ok ⟨none, st, log⟩) ∧
    (a * 60 + b ≠ 0 →
      nativeValue stateRemainingTimeAbsDesc ⟨snap, now, lI, pids⟩ st log =
        .ok ⟨some (.pyStr (fmtHM (now + (a * 60 + b)))), st, log⟩) ∧
    (c * 60 + e = 0 →
      nativeValue stateStartTimeAbsDesc ⟨snap, now, lI, pids⟩ st log =
        .ok ⟨none, st, log⟩) ∧
    (c * 60 + e ≠ 0 →
      nativeValue stateStartTimeAbsDesc ⟨snap, now, lI, pids⟩ st log =
        .ok ⟨some (.pyStr (fmtHM (now + (c * 60 + e)))), st, log⟩) ∧
    (p * 60 + q = 0 →
      nativeValue stateElapsedTimeAbsDesc ⟨snap, now, lI, pids⟩ st log =
        .ok ⟨none, st, log⟩) ∧
    (p * 60 + q ≠ 0 → pyEq s (.pyInt STATE_STATUS_PROGRAM_ENDED) = false →
      nativeValue stateElapsedTimeAbsDesc ⟨snap, now, lI, pids⟩ st log =
        .ok ⟨some (.pyStr (fmtHM (now - (p * 60 + q)))),
             { st with last_started_time_reported := some (.pyStr (fmtHM (now - (p * 60 + q)))) },
             log⟩) := by
  refine ⟨?_, ?_, ?_, ?_, ?_, ?_, ?_, ?_, ?_⟩
  · simp [nativeValue, stateRemainingTimeDesc, minsOf, getTagOpt, getTagS, h1, h2]
  · simp [nativeValue, stateStartTimeDesc, minsOf, getTagOpt, getTagS, h3, h4]
  · intro h
    simp [nativeValue, stateElapsedTimeDesc, minsOf, getTagOpt, getTagS, h5, h6,
      hs, h]
  · intro h
    simp [nativeValue, stateRemainingTimeAbsDesc, minsOf, getTagOpt, getTagS,
      h1, h2, h]
  · intro h
    simp [nativeValue, stateRemainingTimeAbsDesc, minsOf, getTagOpt, getTagS,
      h1, h2, h]
  · intro h
    simp [nativeValue, stateStartTimeAbsDesc, minsOf, getTagOpt, getTagS, h3,
      h4, h]
  · intro h
    simp [nativeValue, stateStartTimeAbsDesc, minsOf, getTagOpt, getTagS, h3,
      h4, h]
  · intro h
    simp [nativeValue, stateElapsedTimeAbsDesc, minsOf, getTagOpt, getTagS, h5,
      h6, h]
  · intro h hend
    simp [nativeValue, stateElapsedTimeAbsDesc, minsOf, getTagOpt, getTagS, h5,
      h6, hs, h, hend]

/-- Witness for the amended C3: on a running appliance (status 5) at 10:00,
remaining 1h05 gives 65 minutes and "Finish at 11:05", start 0h45 gives 45
minutes and "Start at 10:45", elapsed 0h30 gives 30 minutes and
"Started at 09:30". -/
theorem C3_amended_composite_time_witness :
    nativeValue stateRemainingTimeDesc ⟨snapRunning, 600, false, []⟩ ⟨none, none, []⟩ [] =
      .ok ⟨some (.pyInt (1 * 60 + 5)), ⟨none, none, []⟩, []⟩ ∧
    nativeValue stateRemainingTimeAbsDesc ⟨snapRunning, 600, false, []⟩ ⟨none, none, []⟩ [] =
      .ok ⟨some (.pyStr (fmtHM (600 + (1 * 60 + 5)))), ⟨none, none, []⟩, []⟩ ∧
    nativeValue stateElapsedTimeAbsDesc ⟨snapRunning, 600, false, []⟩ ⟨none, none, []⟩ [] =
      .ok ⟨some (.pyStr (fmtHM (600 - (0 * 60 + 30)))),
           ⟨none, some (.pyStr (fmtHM (600 - (0 * 60 + 30)))), []⟩, []⟩ := by
  have h := C3_amended_composite_time snapRunning 600 false [] ⟨none, none, []⟩ []
    1 5 0 45 0 30 (.pyInt 5) rfl rfl rfl rfl rfl rfl rfl
  exact ⟨h.1, h.2.2.2.2.1 (by decide), h.2.2.2.2.2.2.2.2 (by decide) (by decide)⟩

/-- Claim C4: on the generic value-derivation path (key not handled by a
bespoke branch and not zeroed by the consumption override), `native_value`
returns None when the raw field is absent, when the raw value equals either
sentinel constant, and, for `stateProgramId`/`stateProgramPhase`, whenever
the raw value is at most zero. -/
theorem C4_generic_unavailable (d : MieleSensorDescription) (snap : Snapshot)
    (now : Int) (pids : List (PyVal × PyVal)) (st : EntityState)
    (log : List LogRec) (s : PyVal)
    (hk : d.key ∉ specialKeys)
    (hkc : d.key ∉ consumptionKeys)
    (hs : sget snap d.status_key_raw = some s) :
    (dataGet? snap d.data_tag = none →
      nativeValue d ⟨snap, now, false, pids⟩ st log = .ok ⟨none, st, log⟩) ∧
    (∀ v, dataGet? snap d.data_tag = some v →
      (pyEq v (.pyInt (-32766)) = true ∨ pyEq v (.pyInt (-32768)) = true) →
      nativeValue d ⟨snap, now, false, pids⟩ st log = .ok ⟨none, st, log⟩) ∧
    (∀ v q, d.key ∈ ["stateProgramId", "stateProgramPhase"] →
      dataGet? snap d.data_tag = some v → PyVal.toRat? v = some q → q ≤ 0 →
      nativeValue d ⟨snap, now, false, pids⟩ st log = .ok ⟨none, st, log⟩) := by
  simp only [specialKeys, consumptionKeys, List.mem_cons, List.not_mem_nil,
    or_false, not_or] at hk hkc
  obtain ⟨k1, k2, k3, k4, k5, k6, k7, k8, k9, k10, k11, k12⟩ := hk
  obtain ⟨c1, c2⟩ := hkc
  refine ⟨?_, ?_, ?_⟩
  · intro h
    have hv := dataGet_none snap d.data_tag h
    simp [nativeValue, k1, k2, k3, k4, k5, k6, k7, k8, k9, k10, k11, k12, c1,
      c2, getTagS, hs, h, hv]
  · intro v hv hsent
    have hv2 := dataGet_some snap d.data_tag v hv
    rcases hsent with h | h <;>
      simp [nativeValue, k1, k2, k3, k4, k5, k6, k7, k8, k9, k10, k11, k12, c1,
        c2, getTagS, hs, hv, hv2, h]
  · intro v q hpp hv hq hle
    have hv2 := dataGet_some snap d.data_tag v hv
    by_cases hsent : pyEq v (.pyInt (-32766)) = true ∨ pyEq v (.pyInt (-32768)) = true
    · rcases hsent with h | h <;>
        simp [nativeValue, k1, k2, k3, k4, k5, k6, k7, k8, k9, k10, k11, k12,
          c1, c2, getTagS, hs, hv, hv2, h]
    · rw [not_or] at hsent
      obtain ⟨hs1, hs2⟩ := hsent
      rw [Bool.not_eq_true] at hs1 hs2
      simp [nativeValue, k1, k2, k3, k4, k5, k6, k7, k8, k9, k10, k11, k12, c1,
        c2, getTagS, hs, hv, hv2, hs1, hs2, hpp, lePyZero, hq, hle]

/-- Witness for C4: a program-id raw value of -1 yields None. -/
theorem C4_generic_unavailable_witness :
    nativeValue stateProgramIdDesc ⟨snapC4, 0, false, []⟩ ⟨none, none, []⟩ [] =
      .ok ⟨none, ⟨none, none, []⟩, []⟩ :=
  (C4_generic_unavailable stateProgramIdDesc snapC4 0 [] ⟨none, none, []⟩ []
    (.pyInt 5) (by decide) (by decide) rfl).2.2 (.pyInt (-1)) (-1)
    (by decide) rfl rfl (by norm_num)

/-- Claim C6: on the generic path with a converter, a configured override
whose value lies in the entity's precomputed available-states list wins;
otherwise the converter is applied to (raw value, appliance raw type code);
with no converter the raw value is returned unchanged for every override
mapping, so the override is never consulted. -/
theorem C6_override_convert (d : MieleSensorDescription) (snap : Snapshot)
    (now : Int) (pids : List (PyVal × PyVal)) (st : EntityState)
    (log : List LogRec) (s v : PyVal)
    (hk : d.key ∉ specialKeys)
    (hkc : d.key ∉ consumptionKeys)
    (hs : sget snap d.status_key_raw = some s)
    (hv : dataGet? snap d.data_tag = some v)
    (hs1 : pyEq v (.pyInt (-32766)) = false)
    (hs2 : pyEq v (.pyInt (-32768)) = false)
    (hpp : d.key ∈ ["stateProgramId", "stateProgramPhase"] →
      lePyZero v = .ok false) :
    (d.convert = none →
      nativeValue d ⟨snap, now, false, pids⟩ st log = .ok ⟨some v, st, log⟩) ∧
    (∀ f w, d.convert = some f → pyLookup pids v = some w →
      pyMem w st.available_states = true →
      nativeValue d ⟨snap, now, false, pids⟩ st log = .ok ⟨some w, st, log⟩) ∧
    (∀ f t r, d.convert = some f → pyLookup pids v = none →
      sget snap d.type_key_raw = some t → f v t = .ok r →
      nativeValue d ⟨snap, now, false, pids⟩ st log = .ok ⟨some r, st, log⟩) ∧
    (∀ f w t r, d.convert = some f → pyLookup pids v = some w →
      pyMem w st.available_states = false →
      sget snap d.type_key_raw = some t → f v t = .ok r →
      nativeValue d ⟨snap, now, false, pids⟩ st log = .ok ⟨some r, st, log⟩) := by
  simp only [specialKeys, consumptionKeys, List.mem_cons, List.not_mem_nil,
    or_false, not_or] at hk hkc
  obtain ⟨k1, k2, k3, k4, k5, k6, k7, k8, k9, k10, k11, k12⟩ := hk
  obtain ⟨c1, c2⟩ := hkc
  have hv2 := dataGet_some snap d.data_tag v hv
  refine ⟨?_, ?_, ?_, ?_⟩
  · intro hc
    rcases Decidable.em (d.key = "stateProgramId" ∨ d.key = "stateProgramPhase")
      with hpk | hpk
    · have hg := hpp (by simpa using hpk)
      rcases hpk with h | h <;>
        simp [nativeValue, h, getTagS, hs, hv, hv2, hs1, hs2, hg, hc]
    · rw [not_or] at hpk
      simp [nativeValue, k1, k2, k3, k4, k5, k6, k7, k8, k9, k10, k11, k12, c1,
        c2, hpk.1, hpk.2, getTagS, hs, hv, hv2, hs1, hs2, hc]
  · intro f w hc hw hmem
    rcases Decidable.em (d.key = "stateProgramId" ∨ d.key = "stateProgramPhase")
      with hpk | hpk
    · have hg := hpp (by simpa using hpk)
      rcases hpk with h | h <;>
        simp [nativeValue, h, getTagS, hs, hv, hv2, hs1, hs2, hg, hc, hw, hmem]
    · rw [not_or] at hpk
      simp [nativeValue, k1, k2, k3, k4, k5, k6, k7, k8, k9, k10, k11, k12, c1,
        c2, hpk.1, hpk.2, getTagS, hs, hv, hv2, hs1, hs2, hc, hw, hmem]
  · intro f t r hc hw htk hfr
    rcases Decidable.em (d.key = "stateProgramId" ∨ d.key = "stateProgramPhase")
      with hpk | hpk
    · have hg := hpp (by simpa using hpk)
      rcases hpk with h | h <;>
        simp [nativeValue, h, getTagS, hs, hv, hv2, hs1, hs2, hg, hc, hw, htk, hfr]
    · rw [not_or] at hpk
      simp [nativeValue, k1, k2, k3, k4, k5, k6, k7, k8, k9, k10, k11, k12, c1,
        c2, hpk.1, hpk.2, getTagS, hs, hv, hv2, hs1, hs2, hc, hw, htk, hfr]
  · intro f w t r hc hw hmem htk hfr
    rcases Decidable.em (d.key = "stateProgramId" ∨ d.key = "stateProgramPhase")
      with hpk | hpk
    · have hg := hpp (by simpa using hpk)
      rcases hpk with h | h <;>
        simp [nativeValue, h, getTagS, hs, hv, hv2, hs1, hs2, hg, hc, hw, hmem,
          htk, hfr]
    · rw [not_or] at hpk
      simp [nativeValue, k1, k2, k3, k4, k5, k6, k7, k8, k9, k10, k11, k12, c1,
        c2, hpk.1, hpk.2, getTagS, hs, hv, hv2, hs1, hs2, hc, hw, hmem, htk, hfr]

/-- Witness for C6: the override mapping 5 -> "custom phase" with
"custom phase" among the precomputed available states makes the program
sensor display "custom phase" for raw value 5, overriding the built-in
table. -/
theorem C6_override_convert_witness :
    nativeValue stateProgramIdDesc
      ⟨snapC6, 0, false, [(.pyInt 5, .pyStr "custom phase")]⟩
      ⟨none, none, [.pyStr "custom phase"]⟩ [] =
      .ok ⟨some (.pyStr "custom phase"), ⟨none, none, [.pyStr "custom phase"]⟩, []⟩ :=
  (C6_override_convert stateProgramIdDesc snapC6 0
    [(.pyInt 5, .pyStr "custom phase")] ⟨none, none, [.pyStr "custom phase"]⟩ []
    (.pyInt 5) (.pyInt 5) (by decide) (by decide) rfl rfl (by decide) (by decide)
    (fun _ => rfl)).2.1 programIdConvert (.pyStr "custom phase") rfl
    (by decide) (by decide)

/-- Claim C9: for a non-sentinel raw temperature v the temperature sensor
reports v/100 and the target-temperature sensors report the integer
truncation of v/100. -/
theorem C9_temperature_convert (snap : Snapshot) (now : Int) (lI : Bool)
    (pids : List (PyVal × PyVal)) (st : EntityState) (log : List LogRec)
    (s t : PyVal) (v : Int)
    (hs : sget snap "state|status|value_raw" = some s)
    (ht : sget snap "ident|type|value_raw" = some t)
    (hno : pyLookup pids (.pyInt v) = none)
    (h1 : v ≠ -32766) (h2 : v ≠ -32768) :
    (sget snap "state|temperature|0|value_raw" = some (.pyInt v) →
      nativeValue temperatureDesc ⟨snap, now, lI, pids⟩ st log =
        .ok ⟨some (.pyRat ((v : Rat) / 100)), st, log⟩) ∧
    (sget snap "state|targetTemperature|0|value_raw" = some (.pyInt v) →
      nativeValue targetTemperatureDesc ⟨snap, now, lI, pids⟩ st log =
        .ok ⟨some (.pyInt (ratTrunc ((v : Rat) / 100))), st, log⟩) ∧
    (sget snap "state|targetTemperature|1|value_raw" = some (.pyInt v) →
      nativeValue targetTemperature2Desc ⟨snap, now, lI, pids⟩ st log =
        .ok ⟨some (.pyInt (ratTrunc ((v : Rat) / 100))), st, log⟩) ∧
    (sget snap "state|targetTemperature|2|value_raw" = some (.pyInt v) →
      nativeValue targetTemperature3Desc ⟨snap, now, lI, pids⟩ st log =
        .ok ⟨some (.pyInt (ratTrunc ((v : Rat) / 100))), st, log⟩) := by
  have e1 : pyEq (.pyInt v) (.pyInt (-32766)) = false := by
    rw [pyEq_int]
    simp [h1]
  have e2 : pyEq (.pyInt v) (.pyInt (-32768)) = false := by
    rw [pyEq_int]
    simp [h2]
  refine ⟨?_, ?_, ?_, ?_⟩ <;> intro hv <;>
    simp [nativeValue, temperatureDesc, targetTemperatureDesc,
      targetTemperature2Desc, targetTemperature3Desc, getTagS, getTagOpt,
      dataGet?, hv, hs, ht, e1, e2, hno, tempConvert, targetTempConvert,
      PyVal.toRat?]

/-- Witness for C9: raw 2350 on appliance type 19 displays 23.5 degrees on
the temperature sensor and 23 on the target-temperature sensor. -/
theorem C9_temperature_convert_witness :
    (nativeValue temperatureDesc ⟨snapC9, 0, false, []⟩ ⟨none, none, []⟩ [] =
      .ok ⟨some (.pyRat (((2350 : Int) : Rat) / 100)), ⟨none, none, []⟩, []⟩) ∧
    (nativeValue targetTemperatureDesc ⟨snapC9, 0, false, []⟩ ⟨none, none, []⟩ [] =
      .ok ⟨some (.pyInt (ratTrunc (((2350 : Int) : Rat) / 100))), ⟨none, none, []⟩, []⟩) ∧
    ((2350 : Int) : Rat) / 100 = 47 / 2 ∧
    ratTrunc (((2350 : Int) : Rat) / 100) = 23 := by
  have h := C9_temperature_convert snapC9 0 false [] ⟨none, none, []⟩ []
    (.pyInt 5) (.pyInt 19) 2350 rfl rfl rfl (by norm_num) (by norm_num)
  refine ⟨h.1 rfl, h.2.1 rfl, by norm_num, ?_⟩
  rw [ratTrunc, if_pos (by norm_num), Int.floor_eq_iff]
  constructor <;> norm_num

/-- Counterexample for C7: the diagnostic log is not a drop-oldest ring
buffer: with the log at capacity 500 and the oldest entry at the head, an
append discards the newest (last) entry and keeps the oldest, so the result
differs from what drop-oldest would produce. -/
theorem C7_counterexample :
    idLogAppend (logRecB :: List.replicate 499 logRecA) logRecC =
      logRecB :: (List.replicate 498 logRecA ++ [logRecC]) ∧
    logRecB :: (List.replicate 498 logRecA ++ [logRecC]) ≠
      List.replicate 499 logRecA ++ [logRecC] := by
  constructor
  · rw [idLogAppend,
      idLogTrim_atCap _ (by rw [List.length_cons, List.length_replicate])]
    rw [show (499 : Nat) = 498 + 1 from rfl, List.replicate_succ']
    rw [show logRecB :: (List.replicate 498 logRecA ++ [logRecA]) =
      (logRecB :: List.replicate 498 logRecA) ++ [logRecA] from
      (List.cons_append logRecB _ _).symm]
    rw [List.dropLast_concat, List.cons_append]
  · intro h
    have h2 := congrArg List.head? h
    rw [show List.replicate 499 logRecA = logRecA :: List.replicate 498 logRecA
      from rfl] at h2
    simp only [List.cons_append, List.head?_cons, Option.some.injEq] at h2
    exact (by decide : logRecB ≠ logRecA) h2

/-- Claim C7 as amended: when logging verbosity is INFO or finer, each read
of the three diagnostic sensors appends one raw/localized record to the
process-wide log; the log never exceeds 500 entries, and at capacity the
newest (most recently appended) entry is discarded before appending
(drop-newest, because `list.pop()` removes the last element). -/
theorem C7_idlog_amended (d : MieleSensorDescription)
    (hd : d = stateProgramIdDesc ∨ d = stateProgramPhaseDesc ∨
      d = stateProgramTypeDesc)
    (snap : Snapshot) (now : Int) (pids : List (PyVal × PyVal))
    (st : EntityState) (log : List LogRec) (appl loc s t : PyVal) (n : Int)
    (happl : sget snap "ident|type|value_localized" = some appl)
    (hraw : dataGet? snap d.data_tag = some (.pyInt n))
    (hloc : dataGet? snap d.data_tag_loc = some loc)
    (hs : sget snap "state|status|value_raw" = some s)
    (ht : sget snap "ident|type|value_raw" = some t) :
    (∃ r : ReadResult,
      nativeValue d ⟨snap, now, true, pids⟩ st log = .ok r ∧
      r.idLog = idLogAppend log ⟨appl, d.key, .pyInt n, loc⟩) ∧
    (∀ l : List LogRec, ∀ rec : LogRec, l.length ≤ 500 →
      (idLogAppend l rec).length ≤ 500) ∧
    (∀ l : List LogRec, ∀ rec : LogRec, l.length = 500 →
      idLogAppend l rec = l.dropLast ++ [rec]) := by
  refine ⟨?_, ?_, ?_⟩
  · rcases hd with rfl | rfl | rfl
    · have hv2 : getTagOpt snap (some "state|ProgramID|value_raw") =
          .ok (.pyInt n) := dataGet_some snap _ _ hraw
      have hloc2 : getTagOpt snap (some "state|ProgramID|value_localized") =
          .ok loc := dataGet_some snap _ _ hloc
      have hraw2 : dataGet? snap (some "state|ProgramID|value_raw") =
          some (.pyInt n) := hraw
      simp [nativeValue, stateProgramIdDesc, getTagS, happl, hs, ht, hraw2,
        hv2, hloc2, lePyZero, PyVal.toRat?, programIdConvert]
      repeat' first
      | exact ⟨_, rfl, rfl⟩
      | split
    · have hv2 : getTagOpt snap (some "state|programPhase|value_raw") =
          .ok (.pyInt n) := dataGet_some snap _ _ hraw
      have hloc2 : getTagOpt snap (some "state|programPhase|value_localized") =
          .ok loc := dataGet_some snap _ _ hloc
      have hraw2 : dataGet? snap (some "state|programPhase|value_raw") =
          some (.pyInt n) := hraw
      simp [nativeValue, stateProgramPhaseDesc, getTagS, happl, hs, ht, hraw2,
        hv2, hloc2, lePyZero, PyVal.toRat?, programPhaseConvert]
      repeat' first
      | exact ⟨_, rfl, rfl⟩
      | split
    · have hv2 : getTagOpt snap (some "state|programType|value_raw") =
          .ok (.pyInt n) := dataGet_some snap _ _ hraw
      have hloc2 : getTagOpt snap (some "state|programType|value_localized") =
          .ok loc := dataGet_some snap _ _ hloc
      have hraw2 : dataGet? snap (some "state|programType|value_raw") =
          some (.pyInt n) := hraw
      simp [nativeValue, stateProgramTypeDesc, getTagS, happl, hs, ht, hraw2,
        hv2, hloc2, lePyZero, PyVal.toRat?, programTypeConvert]
      repeat' first
      | exact ⟨_, rfl, rfl⟩
      | split
  · intro l rec hl
    by_cases h : l.length < 500
    · rw [idLogAppend, idLogTrim_of_lt l h]
      simp only [List.length_append, List.length_cons, List.length_nil]
      omega
    · have h5 : l.length = 500 := by omega
      rw [idLogAppend, idLogTrim_atCap l h5]
      simp only [List.length_append, List.length_dropLast, List.length_cons,
        List.length_nil]
      omega
  · intro l rec hl
    rw [idLogAppend, idLogTrim_atCap l hl]

/-- Witness for the amended C7: at INFO verbosity a program-id read with raw
value 1 and localized "Cottons" appends exactly that record to a log holding
one prior record. -/
theorem C7_idlog_amended_witness :
    ∃ r : ReadResult,
      nativeValue stateProgramIdDesc ⟨snapC7, 0, true, []⟩ ⟨none, none, []⟩
        [logRecA] = .ok r ∧
      r.idLog = idLogAppend [logRecA]
        ⟨.pyStr "Washing machine", "stateProgramId", .pyInt 1, .pyStr "Cottons"⟩ :=
  (C7_idlog_amended stateProgramIdDesc (Or.inl rfl) snapC7 0 [] ⟨none, none, []⟩
    [logRecA] (.pyStr "Washing machine") (.pyStr "Cottons") (.pyInt 5)
    (.pyInt 1) 1 rfl rfl rfl rfl rfl).1

/-- Counterexample for C8: reading `extra_state_attributes` of the
program-phase sensor on a snapshot with raw value 5 mutates the catalog
description in place — its extra-attributes template changes from the static
`[("Raw value", 0)]` to the populated values. -/
theorem C8_counterexample :
    extraStateAttributes stateProgramPhaseDesc "appliance-1" snapC8 =
      .ok (some [("Raw value", .pyInt 5), ("Localized", .pyStr "Main wash")],
        { stateProgramPhaseDesc with
           extra_attributes := some [("Raw value", .pyInt 5), ("Localized", .pyStr "Main wash")] }) ∧
    stateProgramPhaseDesc.extra_attributes = some [("Raw value", .pyInt 0)] ∧
    some [("Raw value", PyVal.pyInt 5), ("Localized", PyVal.pyStr "Main wash")] ≠
      some [("Raw value", PyVal.pyInt 0)] := by
  refine ⟨rfl, rfl, by decide⟩

/-- Claim C8 as amended: `native_value` and `available` modify no field of any
description (they are pure functions of it in this embedding), but
`extra_state_attributes` is not modification-free: it writes the populated
attribute mapping back into the description's `extra_attributes` field (all
other fields are untouched, and a description without a template is returned
unchanged). -/
theorem C8_amended_mutation (d : MieleSensorDescription) (ent : String)
    (snap : Snapshot) (a : Option (List (String × PyVal)))
    (dd : MieleSensorDescription)
    (h : extraStateAttributes d ent snap = .ok (a, dd)) :
    dd.key = d.key ∧ dd.data_tag = d.data_tag ∧ dd.data_tag1 = d.data_tag1 ∧
    dd.data_tag_loc = d.data_tag_loc ∧ dd.type_key = d.type_key ∧
    dd.type_key_raw = d.type_key_raw ∧ dd.status_key_raw = d.status_key_raw ∧
    dd.convert = d.convert ∧ dd.available_states = d.available_states ∧
    (d.extra_attributes = none → dd = d ∧ a = none) ∧
    (d.extra_attributes ≠ none → dd.extra_attributes = a ∧ a ≠ none) := by
  cases he : d.extra_attributes with
  | none =>
    simp only [extraStateAttributes, he, Except.ok.injEq, Prod.mk.injEq] at h
    obtain ⟨ha, hdd⟩ := h
    subst ha
    subst hdd
    simp [he]
  | some t =>
    simp only [extraStateAttributes, he] at h
    cases hp : populateAttrs d ent snap t with
    | error e =>
      rw [hp] at h
      simp at h
    | ok a7 =>
      rw [hp] at h
      simp only [Except.ok.injEq, Prod.mk.injEq] at h
      obtain ⟨ha, hdd⟩ := h
      subst ha
      subst hdd
      simp [he]

/-- Witness for the amended C8: after the program-phase read of the C8
fixture, the description's extra-attributes field holds exactly the returned
populated mapping. -/
theorem C8_amended_mutation_witness :
    ({ stateProgramPhaseDesc with
        extra_attributes := some [("Raw value", PyVal.pyInt 5), ("Localized", PyVal.pyStr "Main wash")] } :
      MieleSensorDescription).extra_attributes =
      (some [("Raw value", PyVal.pyInt 5), ("Localized", PyVal.pyStr "Main wash")] :
        Option (List (String × PyVal))) ∧
    (some [("Raw value", PyVal.pyInt 5), ("Localized", PyVal.pyStr "Main wash")] :
      Option (List (String × PyVal))) ≠ none :=
  (C8_amended_mutation stateProgramPhaseDesc "appliance-1" snapC8
    (some [("Raw value", .pyInt 5), ("Localized", .pyStr "Main wash")])
    { stateProgramPhaseDesc with
       extra_attributes := some [("Raw value", .pyInt 5), ("Localized", .pyStr "Main wash")] }
    rfl).2.2.2.2.2.2.2.2.2.2 (by simp [stateProgramPhaseDesc])

end Miele
